import Mathlib

/-!
Shallow embedding of `src/TB6612FNG.py`, a MicroPython driver for the
Grove Motor Driver (TB6612FNG) reached over I2C.

Modelling conventions:
* The I2C bus is the injected transport: each `writeto` /
  `write_i2c_block_data` call is recorded as one `I2CWrite` event
  (address used, payload bytes) appended to a trace kept in the state.
  The trailing `0` argument that `standby` / `not_standby` pass to
  `writeto` is the I2C stop-bit flag, a transport detail not modelled.
* Python `int` is `Int`.  Python `bytes(n)` for an `int` argument `n`
  builds `n` zero bytes (`pyBytesOfNat`); `bytes([..])` checks each
  element is in `0..255` and fails with `ValueError` otherwise
  (`pyBytesOfList`); `bytearray` item assignment has the same range
  check (`byteSet`).
* A method that can raise returns `Except (String × MotorDriverState)`:
  the error carries the exception name and the state at raise time
  (writes performed before the exception are kept, as in Python).
* `self._buffer` is a per-call scratch bytearray, wholly rebuilt by each
  method before use; it is modelled as a local value, not state.
* `int(3000.0 / rpm)` truncates the IEEE-754 double quotient toward
  zero.  After clamping, `rpm ∈ [1, 300]`, so the quotient is ≥ 10 and
  its distance to the nearest integer below/above is ≥ 1/300 when it is
  not exact, far above the rounding error of one double division; hence
  the truncation equals `⌊3000 / rpm⌋` and `Nat` division is faithful.
-/

/-- Command codes of class `TB6612FNGCodes` (source lines 23–41). -/
def GMD_I2C_ADDRESS : Nat := 0x14

def GMD_CMD_BRAKE : Nat := 0x00

def GMD_CMD_STOP : Nat := 0x01

def GMD_CMD_CW : Nat := 0x02

def GMD_CMD_CCW : Nat := 0x03

def GMD_CMD_STANDBY : Nat := 0x04

def GMD_CMD_NOT_STANDBY : Nat := 0x05

def GMD_CMD_STEPPER_RUN : Nat := 0x06

def GMD_CMD_STEPPER_STOP : Nat := 0x07

def GMD_CMD_STEPPER_KEEP_RUN : Nat := 0x08

def GMD_CMD_SET_ADDR : Nat := 0x11

/-- Motor channels of class `TB6612FNGMotors` (source lines 44–51). -/
def MOTOR_CHA : Int := 0

def MOTOR_CHB : Int := 1

/-- Stepper modes of class `TB6612FNGStepper` (source lines 55–63). -/
def FULL_STEP : Int := 0

def WAVE_DRIVE : Int := 1

def HALF_STEP : Int := 2

def MICRO_STEPPING : Int := 3

/-- One transport write: the address the frame was written to and the
payload bytes handed to the bus. -/
structure I2CWrite where
  addr : Int
  data : List Nat
  deriving Repr, DecidableEq

/-- Observable state of a `MotorDriverTB6612FNG` instance: the stored
peripheral address `self._addr` and the trace of bus writes performed so
far (oldest first). -/
structure MotorDriverState where
  addr : Int
  writes : List I2CWrite
  deriving Repr, DecidableEq

/-- Monad of the fallible methods: an exception carries its Python name
and the state at raise time. -/
abbrev PyM (α : Type) := Except (String × MotorDriverState) α

/-- `self._i2c_bus.writeto(self._addr, data)`: record one bus write. -/
def writeto (s : MotorDriverState) (data : List Nat) : MotorDriverState :=
  { s with writes := s.writes ++ [⟨s.addr, data⟩] }

/-- Python `bytes(n)` for an `int` `n ≥ 0`: `n` zero bytes. -/
def pyBytesOfNat (n : Nat) : List Nat :=
  List.replicate n 0

/-- Python `bytes([v₀, v₁, …])`: elements are converted left to right,
each must be in `0..255`, otherwise `ValueError`. -/
def pyBytesOfList : List Int → Except String (List Nat)
  | [] => pure []
  | v :: rest => do
    let b ← if 0 ≤ v ∧ v ≤ 255 then pure v.toNat else throw "ValueError"
    let bs ← pyBytesOfList rest
    pure (b :: bs)

/-- Python bytearray item assignment `buf[i] = v`: `v` must be in
`0..255`, otherwise `ValueError`. -/
def byteSet (b : List Nat) (i : Nat) (v : Int) : Except String (List Nat) :=
  if 0 ≤ v ∧ v ≤ 255 then pure (b.set i v.toNat) else throw "ValueError"

/-- Lift a frame-construction step into `PyM`, attaching the state at
raise time to a `ValueError`. -/
def liftB (s : MotorDriverState) (r : Except String α) : PyM α :=
  match r with
  | .ok a => .ok a
  | .error e => .error (e, s)

/-- `standby` (lines 86–91): `writeto(self._addr,
bytes(GMD_CMD_STANDBY), 0)`.  `bytes(4)` is four zero bytes. -/
def standby (s : MotorDriverState) : MotorDriverState :=
  writeto s (pyBytesOfNat GMD_CMD_STANDBY)

/-- `not_standby` (lines 93–98): `writeto(self._addr,
bytes(GMD_CMD_NOT_STANDBY), 0)`.  `bytes(5)` is five zero bytes. -/
def not_standby (s : MotorDriverState) : MotorDriverState :=
  writeto s (pyBytesOfNat GMD_CMD_NOT_STANDBY)

/-- `stepper_stop` (lines 198–203): `writeto(self._addr,
bytes(GMD_CMD_STEPPER_STOP))`.  `bytes(7)` is seven zero bytes. -/
def stepper_stop (s : MotorDriverState) : MotorDriverState :=
  writeto s (pyBytesOfNat GMD_CMD_STEPPER_STOP)

/-- `set_i2c_addr` (lines 100–111): return on `addr == 0` or
`addr >= 0x80`; otherwise `writeto(self._addr, bytes(GMD_CMD_SET_ADDR))`
(`bytes(0x11)` is 17 zero bytes) and then `self._addr = addr`. -/
def set_i2c_addr (s : MotorDriverState) (addr : Int) : MotorDriverState :=
  if addr = 0 then s
  else if 0x80 ≤ addr then s
  else
    let s1 := writeto s (pyBytesOfNat GMD_CMD_SET_ADDR)
    { s1 with addr := addr }

/-- `if speed > 255: speed = 255 elif speed < -255: speed = -255`
(lines 125–128). -/
def clampSpeed (speed : Int) : Int :=
  if speed > 255 then 255 else if speed < -255 then -255 else speed

/-- `dc_motor_run` (lines 113–139). -/
def dc_motor_run (s : MotorDriverState) (chl speed : Int) :
    PyM MotorDriverState := do
  -- self._buffer = bytearray(3)
  let buf := List.replicate 3 0
  let speed := clampSpeed speed
  -- if speed >= 0: buffer[0] = GMD_CMD_CW; buffer[2] = speed
  -- else: buffer[0] = GMD_CMD_CCW; buffer[2] = -speed
  let buf ←
    if 0 ≤ speed then do
      let b ← liftB s (byteSet buf 0 (GMD_CMD_CW : Int))
      liftB s (byteSet b 2 speed)
    else do
      let b ← liftB s (byteSet buf 0 (GMD_CMD_CCW : Int))
      liftB s (byteSet b 2 (-speed))
  -- self._buffer[1] = int(chl)
  let buf ← liftB s (byteSet buf 1 chl)
  pure (writeto s buf)

/-- `dc_motor_break` (lines 141–147): `writeto(self._addr,
bytes([GMD_CMD_BRAKE, chl]))`. -/
def dc_motor_break (s : MotorDriverState) (chl : Int) :
    PyM MotorDriverState := do
  let frame ← liftB s (pyBytesOfList [(GMD_CMD_BRAKE : Int), chl])
  pure (writeto s frame)

/-- `dc_motor_stop` (lines 149–155): `writeto(self._addr,
bytes([GMD_CMD_STOP, chl]))`. -/
def dc_motor_stop (s : MotorDriverState) (chl : Int) :
    PyM MotorDriverState := do
  let frame ← liftB s (pyBytesOfList [(GMD_CMD_STOP : Int), chl])
  pure (writeto s frame)

/-- `if rpm < 1: rpm = 1 elif rpm > 300: rpm = 300`
(lines 181–184 and 218–221). -/
def clampRpm (rpm : Int) : Int :=
  if rpm < 1 then 1 else if rpm > 300 then 300 else rpm

/-- `ms_per_step = int(3000.0 / rpm)` after the clamp (lines 186, 223);
exact floor for `rpm ∈ [1, 300]`, see the header note on the double
division. -/
def msPerStep (rpm : Int) : Nat :=
  3000 / (clampRpm rpm).toNat

/-- The `if/elif` chain on `steps` of `stepper_run` (lines 169–179):
yields the final `cw`, the final `steps`, and the state after the
branch.  The `steps == 0` arm calls `self.stepper_stop()` but does NOT
return, so execution falls through with `steps` still `0`. -/
def stepsBranch (s : MotorDriverState) (steps : Int) :
    Int × Int × MotorDriverState :=
  if 0 < steps then (1, steps, s)
  else if steps = 0 then (0, steps, stepper_stop s)
  else if steps = -32768 then (0, 32767, s)
  else (0, -steps, s)

/-- `stepper_run` (lines 157–196). -/
def stepper_run (s : MotorDriverState) (mode steps rpm : Int) :
    PyM MotorDriverState := do
  -- cw = 0; self._buffer = bytearray(7); if/elif chain on steps
  let buf := List.replicate 7 0
  let r := stepsBranch s steps
  let cw := r.1
  let steps := r.2.1
  let s := r.2.2
  let ms_per_step := msPerStep rpm
  let buf ← liftB s (byteSet buf 0 (GMD_CMD_STEPPER_RUN : Int))
  let buf ← liftB s (byteSet buf 1 mode)
  let buf ← liftB s (byteSet buf 2 cw)
  -- steps is nonnegative after the branch, so Python's & and >> on it
  -- agree with the Nat operations on steps.toNat
  let buf ← liftB s (byteSet buf 3 (((steps.toNat &&& 0xFF : Nat) : Int)))
  let buf ← liftB s (byteSet buf 4 ((((steps.toNat >>> 8) &&& 0xFF : Nat) : Int)))
  let buf ← liftB s (byteSet buf 5 (((ms_per_step &&& 0xFF : Nat) : Int)))
  let buf ← liftB s (byteSet buf 6 ((((ms_per_step >>> 8) &&& 0xFF : Nat) : Int)))
  pure (writeto s buf)

/-- `stepper_keep_run` (lines 205–231).  The final call in the source is
`self._i2c_bus.write_i2c_block_data(self._addr, self._buffer)`; under
the transport abstraction it is the single write of the frame. -/
def stepper_keep_run (s : MotorDriverState) (mode rpm is_cw : Int) :
    PyM MotorDriverState := do
  -- cw = 5 if is_cw else 4  (Python truthiness: nonzero int is true)
  let cw : Int := if is_cw ≠ 0 then 5 else 4
  -- self._buffer = bytearray(5)
  let buf := List.replicate 5 0
  let ms_per_step := msPerStep rpm
  let buf ← liftB s (byteSet buf 0 (GMD_CMD_STEPPER_KEEP_RUN : Int))
  let buf ← liftB s (byteSet buf 1 mode)
  let buf ← liftB s (byteSet buf 2 cw)
  let buf ← liftB s (byteSet buf 3 (((ms_per_step &&& 0xFF : Nat) : Int)))
  let buf ← liftB s (byteSet buf 4 ((((ms_per_step >>> 8) &&& 0xFF : Nat) : Int)))
  pure (writeto s buf)

/-- A fresh driver state before `__init__`'s `standby()` call: default
address `0x14`, empty trace (lines 75–84). -/
def initState : MotorDriverState :=
  { addr := (GMD_I2C_ADDRESS : Nat), writes := [] }

/-- `__init__` (lines 75–84): store the address, then call `standby()`. -/
def mkDriver (address : Int) : MotorDriverState :=
  standby { addr := address, writes := [] }

lemma byteSet_eq_ok (b : List Nat) (i : Nat) (v : Int) (h0 : 0 ≤ v) (h1 : v ≤ 255) :
    byteSet b i v = Except.ok (b.set i v.toNat) := by
  unfold byteSet
  rw [if_pos ⟨h0, h1⟩]
  rfl

lemma byteSet_eq_error (b : List Nat) (i : Nat) (v : Int) (h : v < 0 ∨ 255 < v) :
    byteSet b i v = Except.error "ValueError" := by
  unfold byteSet
  rw [if_neg]
  · rfl
  · rintro ⟨h0, h1⟩
    rcases h with h | h <;> omega

lemma byteSet_mask (b : List Nat) (i : Nat) (x : Nat) :
    byteSet b i ((x &&& 0xFF : Nat) : Int) = Except.ok (b.set i (x &&& 0xFF)) := by
  rw [byteSet_eq_ok]
  · simp
  · positivity
  · have h := Nat.and_le_right (n := x) (m := 0xFF)
    omega

lemma mask255_eq_mod (x : Nat) : x &&& 0xFF = x % 256 := by
  have h := Nat.and_pow_two_sub_one_eq_mod x 8
  norm_num at h
  exact h

lemma shr8_eq_div (x : Nat) : x >>> 8 = x / 256 := by
  have h := Nat.shiftRight_eq_div_pow x 8
  norm_num at h
  exact h

lemma liftB_ok (s : MotorDriverState) (a : α) : liftB s (Except.ok a) = Except.ok a := rfl

lemma liftB_err (s : MotorDriverState) (e : String) :
    liftB (α := α) s (Except.error e) = Except.error (e, s) := rfl

lemma clampSpeed_bounds (speed : Int) : -255 ≤ clampSpeed speed ∧ clampSpeed speed ≤ 255 := by
  unfold clampSpeed
  split_ifs <;> omega

lemma set7 (a b c d e f g : Nat) :
    ((((((((List.replicate 7 (0 : Nat)).set 0 a).set 1 b).set 2 c).set 3 d).set 4 e).set
      5 f).set 6 g) = [a, b, c, d, e, f, g] := rfl

lemma set5 (a b c d e : Nat) :
    ((((((List.replicate 5 (0 : Nat)).set 0 a).set 1 b).set 2 c).set 3 d).set 4 e) =
      [a, b, c, d, e] := rfl

lemma stepsBranch_cw (s : MotorDriverState) (steps : Int) :
    (stepsBranch s steps).1 = 0 ∨ (stepsBranch s steps).1 = 1 := by
  unfold stepsBranch
  split_ifs <;> simp

lemma stepsBranch_steps_nonneg (s : MotorDriverState) (steps : Int) :
    0 ≤ (stepsBranch s steps).2.1 := by
  unfold stepsBranch
  split_ifs <;> simp <;> omega

lemma stepper_run_eq (s : MotorDriverState) (mode steps rpm : Int)
    (hm0 : 0 ≤ mode) (hm1 : mode ≤ 255) :
    stepper_run s mode steps rpm =
      Except.ok (writeto (stepsBranch s steps).2.2
        [GMD_CMD_STEPPER_RUN, mode.toNat, (stepsBranch s steps).1.toNat,
         (stepsBranch s steps).2.1.toNat % 256,
         (stepsBranch s steps).2.1.toNat / 256 % 256,
         msPerStep rpm % 256, msPerStep rpm / 256 % 256]) := by
  have hcw : 0 ≤ (stepsBranch s steps).1 ∧ (stepsBranch s steps).1 ≤ 255 := by
    rcases stepsBranch_cw s steps with h | h <;> rw [h] <;> omega
  unfold stepper_run
  simp only [liftB_ok, bind, Except.bind, pure,
    byteSet_eq_ok _ _ _ (by decide) (by decide : ((GMD_CMD_STEPPER_RUN : Nat) : Int) ≤ 255),
    byteSet_eq_ok _ _ _ hm0 hm1,
    byteSet_eq_ok _ _ _ hcw.1 hcw.2,
    byteSet_mask]
  rw [set7]
  simp only [mask255_eq_mod, shr8_eq_div, Int.toNat_natCast]
  rfl

lemma stepper_keep_run_eq (s : MotorDriverState) (mode rpm is_cw : Int)
    (hm0 : 0 ≤ mode) (hm1 : mode ≤ 255) :
    stepper_keep_run s mode rpm is_cw =
      Except.ok (writeto s
        [GMD_CMD_STEPPER_KEEP_RUN, mode.toNat, if is_cw ≠ 0 then 5 else 4,
         msPerStep rpm % 256, msPerStep rpm / 256 % 256]) := by
  have hcw : (0 : Int) ≤ (if is_cw ≠ 0 then 5 else 4) ∧
      (if is_cw ≠ 0 then (5 : Int) else 4) ≤ 255 := by
    split_ifs <;> omega
  unfold stepper_keep_run
  simp only [liftB_ok, bind, Except.bind, pure,
    byteSet_eq_ok _ _ _ (by decide) (by decide : ((GMD_CMD_STEPPER_KEEP_RUN : Nat) : Int) ≤ 255),
    byteSet_eq_ok _ _ _ hm0 hm1,
    byteSet_eq_ok _ _ _ hcw.1 hcw.2,
    byteSet_mask]
  rw [set5]
  simp only [mask255_eq_mod, shr8_eq_div, Int.toNat_natCast]
  have htn : (if is_cw ≠ 0 then (5 : Int) else 4).toNat = if is_cw ≠ 0 then 5 else 4 := by
    split_ifs <;> rfl
  rw [htn]
  rfl

lemma dc_motor_run_err (s : MotorDriverState) (chl speed : Int)
    (h : chl < 0 ∨ 255 < chl) :
    dc_motor_run s chl speed = Except.error ("ValueError", s) := by
  obtain ⟨hb0, hb1⟩ := clampSpeed_bounds speed
  unfold dc_motor_run
  by_cases hs : 0 ≤ clampSpeed speed
  · rw [if_pos hs]
    simp only [liftB_ok, liftB_err, bind, Except.bind, pure,
      byteSet_eq_ok _ _ _ (by decide) (by decide : ((GMD_CMD_CW : Nat) : Int) ≤ 255),
      byteSet_eq_ok _ _ _ hs hb1,
      byteSet_eq_error _ _ _ h]
  · rw [if_neg hs]
    simp only [liftB_ok, liftB_err, bind, Except.bind, pure,
      byteSet_eq_ok _ _ _ (by decide) (by decide : ((GMD_CMD_CCW : Nat) : Int) ≤ 255),
      byteSet_eq_ok _ _ _ (by omega : (0:Int) ≤ -clampSpeed speed) (by omega : -clampSpeed speed ≤ 255),
      byteSet_eq_error _ _ _ h]

lemma stepper_run_err (s : MotorDriverState) (mode steps rpm : Int)
    (h : mode < 0 ∨ 255 < mode) :
    stepper_run s mode steps rpm =
      Except.error ("ValueError", (stepsBranch s steps).2.2) := by
  unfold stepper_run
  simp only [liftB_ok, liftB_err, bind, Except.bind, pure,
    byteSet_eq_ok _ _ _ (by decide) (by decide : ((GMD_CMD_STEPPER_RUN : Nat) : Int) ≤ 255),
    byteSet_eq_error _ _ _ h]

lemma stepper_keep_run_err (s : MotorDriverState) (mode rpm is_cw : Int)
    (h : mode < 0 ∨ 255 < mode) :
    stepper_keep_run s mode rpm is_cw = Except.error ("ValueError", s) := by
  unfold stepper_keep_run
  simp only [liftB_ok, liftB_err, bind, Except.bind, pure,
    byteSet_eq_ok _ _ _ (by decide) (by decide : ((GMD_CMD_STEPPER_KEEP_RUN : Nat) : Int) ≤ 255),
    byteSet_eq_error _ _ _ h]

lemma dc_motor_break_eq (s : MotorDriverState) (chl : Int)
    (h0 : 0 ≤ chl) (h1 : chl ≤ 255) :
    dc_motor_break s chl = Except.ok (writeto s [GMD_CMD_BRAKE, chl.toNat]) := by
  unfold dc_motor_break
  simp only [pyBytesOfList, liftB_ok, bind, Except.bind, pure, h0, h1, and_self,
    if_pos (⟨h0, h1⟩ : (0:Int) ≤ chl ∧ chl ≤ 255),
    if_pos (by decide : (0:Int) ≤ (GMD_CMD_BRAKE : Nat) ∧ ((GMD_CMD_BRAKE : Nat) : Int) ≤ 255)]
  rfl

lemma dc_motor_break_err (s : MotorDriverState) (chl : Int)
    (h : chl < 0 ∨ 255 < chl) :
    dc_motor_break s chl = Except.error ("ValueError", s) := by
  unfold dc_motor_break
  simp only [pyBytesOfList, liftB_ok, liftB_err, bind, Except.bind, pure,
    if_pos (by decide : (0:Int) ≤ (GMD_CMD_BRAKE : Nat) ∧ ((GMD_CMD_BRAKE : Nat) : Int) ≤ 255),
    if_neg (by rintro ⟨h0, h1⟩; rcases h with h | h <;> omega : ¬((0:Int) ≤ chl ∧ chl ≤ 255))]
  rfl

lemma dc_motor_stop_eq (s : MotorDriverState) (chl : Int)
    (h0 : 0 ≤ chl) (h1 : chl ≤ 255) :
    dc_motor_stop s chl = Except.ok (writeto s [GMD_CMD_STOP, chl.toNat]) := by
  unfold dc_motor_stop
  simp only [pyBytesOfList, liftB_ok, bind, Except.bind, pure,
    if_pos (⟨h0, h1⟩ : (0:Int) ≤ chl ∧ chl ≤ 255),
    if_pos (by decide : (0:Int) ≤ (GMD_CMD_STOP : Nat) ∧ ((GMD_CMD_STOP : Nat) : Int) ≤ 255)]
  rfl

lemma dc_motor_stop_err (s : MotorDriverState) (chl : Int)
    (h : chl < 0 ∨ 255 < chl) :
    dc_motor_stop s chl = Except.error ("ValueError", s) := by
  unfold dc_motor_stop
  simp only [pyBytesOfList, liftB_ok, liftB_err, bind, Except.bind, pure,
    if_pos (by decide : (0:Int) ≤ (GMD_CMD_STOP : Nat) ∧ ((GMD_CMD_STOP : Nat) : Int) ≤ 255),
    if_neg (by rintro ⟨h0, h1⟩; rcases h with h | h <;> omega : ¬((0:Int) ≤ chl ∧ chl ≤ 255))]
  rfl

lemma dc_motor_run_eq (s : MotorDriverState) (chl speed : Int)
    (h0 : 0 ≤ chl) (h1 : chl ≤ 255) :
    dc_motor_run s chl speed =
      Except.ok (writeto s (if 0 ≤ clampSpeed speed
        then [GMD_CMD_CW, chl.toNat, (clampSpeed speed).toNat]
        else [GMD_CMD_CCW, chl.toNat, (-clampSpeed speed).toNat])) := by
  obtain ⟨hb0, hb1⟩ := clampSpeed_bounds speed
  unfold dc_motor_run
  by_cases hs : 0 ≤ clampSpeed speed
  · rw [if_pos hs]
    simp only [bind, Except.bind,
      byteSet_eq_ok _ _ _ (by decide) (by decide : ((GMD_CMD_CW : Nat) : Int) ≤ 255),
      byteSet_eq_ok _ _ _ hs hb1,
      byteSet_eq_ok _ _ _ h0 h1, liftB_ok, if_pos hs, pure]
    rfl
  · rw [if_neg hs]
    simp only [bind, Except.bind,
      byteSet_eq_ok _ _ _ (by decide) (by decide : ((GMD_CMD_CCW : Nat) : Int) ≤ 255),
      byteSet_eq_ok _ _ _ (by omega : (0:Int) ≤ -clampSpeed speed) (by omega : -clampSpeed speed ≤ 255),
      byteSet_eq_ok _ _ _ h0 h1, liftB_ok, if_neg hs, pure]
    rfl

lemma stepsBranch_pos (s : MotorDriverState) (steps : Int) (h : 0 < steps) :
    stepsBranch s steps = (1, steps, s) := by
  unfold stepsBranch
  rw [if_pos h]

lemma stepsBranch_zero (s : MotorDriverState) :
    stepsBranch s 0 = (0, 0, stepper_stop s) := rfl

lemma stepsBranch_min (s : MotorDriverState) :
    stepsBranch s (-32768) = (0, 32767, s) := rfl

lemma stepsBranch_neg (s : MotorDriverState) (steps : Int)
    (h1 : steps < 0) (h2 : steps ≠ -32768) :
    stepsBranch s steps = (0, -steps, s) := by
  unfold stepsBranch
  rw [if_neg (by omega), if_neg (by omega), if_neg h2]

lemma clampRpm_bounds (rpm : Int) : 1 ≤ clampRpm rpm ∧ clampRpm rpm ≤ 300 := by
  unfold clampRpm
  split_ifs <;> omega

lemma msPerStep_le (rpm : Int) : msPerStep rpm ≤ 3000 := by
  unfold msPerStep
  exact Nat.div_le_self _ _

lemma msPerStep_hi (rpm : Int) : msPerStep rpm / 256 % 256 = msPerStep rpm / 256 := by
  apply Nat.mod_eq_of_lt
  have h := msPerStep_le rpm
  omega

lemma msPerStep_low_rpm (rpm : Int) (h : rpm < 1) : msPerStep rpm = 3000 := by
  unfold msPerStep clampRpm
  rw [if_pos h]
  rfl

lemma msPerStep_high_rpm (rpm : Int) (h : 300 < rpm) : msPerStep rpm = 10 := by
  unfold msPerStep clampRpm
  rw [if_neg (by omega), if_pos (by omega)]
  rfl

/-- C1: the claim says `standby` / `not_standby` / `stepper_stop` each
perform one transport write whose payload is the single command byte
`[0x04]` / `[0x05]` / `[0x07]`.  In the code each call is a single
write, but the payload is `bytes(code)`, which in Python is `code` zero
bytes: 4, 5 and 7 zero bytes respectively, never the command byte.  This
theorem evaluates the three methods on a fresh driver state and records
that none of the frames equals the claimed single-byte frame. -/
theorem standby_stop_frames_are_zero_filled :
    standby initState =
      { addr := 0x14, writes := [⟨0x14, [0, 0, 0, 0]⟩] } ∧
    not_standby initState =
      { addr := 0x14, writes := [⟨0x14, [0, 0, 0, 0, 0]⟩] } ∧
    stepper_stop initState =
      { addr := 0x14, writes := [⟨0x14, [0, 0, 0, 0, 0, 0, 0]⟩] } ∧
    [0, 0, 0, 0] ≠ [GMD_CMD_STANDBY] ∧
    [0, 0, 0, 0, 0] ≠ [GMD_CMD_NOT_STANDBY] ∧
    [0, 0, 0, 0, 0, 0, 0] ≠ [GMD_CMD_STEPPER_STOP] := by
  refine ⟨rfl, rfl, rfl, ?_, ?_, ?_⟩ <;> decide

/-- C2: the claim says `set_i2c_addr new_address` (for `new_address` in
1..127) sends exactly `[0x11]` and then updates the stored address so
that subsequent commands go to the new address.  The address update and
the redirection of subsequent writes are real, but the frame sent is
`bytes(0x11)` = 17 zero bytes, not `[0x11]`.  Evaluated at
`set_i2c_addr 50` on a fresh state, followed by a `standby` call that
indeed goes to address 50. -/
theorem set_i2c_addr_sends_zero_filled_frame :
    set_i2c_addr initState 50 =
      { addr := 50, writes := [⟨0x14, List.replicate 17 0⟩] } ∧
    List.replicate 17 (0 : Nat) ≠ [GMD_CMD_SET_ADDR] ∧
    (standby (set_i2c_addr initState 50)).writes =
      [⟨0x14, List.replicate 17 0⟩, ⟨50, [0, 0, 0, 0]⟩] := by
  refine ⟨rfl, by decide, rfl⟩

/-- C3: the claim says `stepper_run` with `steps == 0` delegates to
`stepper_stop` and produces exactly the same transport output, sending
no StepperRun frame.  The code calls `stepper_stop()` but lacks a
`return`, so it then also builds and sends the 7-byte StepperRun frame:
two writes instead of one.  Evaluated at `stepper_run 0 0 100` against a
direct `stepper_stop`. -/
theorem stepper_run_zero_steps_sends_two_frames :
    stepper_run initState 0 0 100 =
      Except.ok ⟨0x14, [⟨0x14, [0, 0, 0, 0, 0, 0, 0]⟩, ⟨0x14, [6, 0, 0, 0, 0, 30, 0]⟩]⟩ ∧
    stepper_stop initState =
      { addr := 0x14, writes := [⟨0x14, [0, 0, 0, 0, 0, 0, 0]⟩] } ∧
    ([⟨0x14, [0, 0, 0, 0, 0, 0, 0]⟩, ⟨0x14, [6, 0, 0, 0, 0, 30, 0]⟩] :
        List I2CWrite) ≠ [⟨0x14, [0, 0, 0, 0, 0, 0, 0]⟩] := by
  refine ⟨rfl, rfl, by decide⟩

/-- C8: for every `new_address` equal to 0 or ≥ 128, `set_i2c_addr` is
a silent no-op: no transport write, no state change, and (being a total
function in the embedding, matching the exception-free Python path) no
error. -/
theorem set_i2c_addr_out_of_range_noop (s : MotorDriverState) (a : Int)
    (h : a = 0 ∨ 128 ≤ a) : set_i2c_addr s a = s := by
  unfold set_i2c_addr
  rcases h with h | h
  · rw [if_pos h]
  · rw [if_neg (by omega), if_pos (by omega)]

/-- Witness for C8 at the concrete inputs 0 and 128. -/
theorem set_i2c_addr_out_of_range_noop_witness :
    set_i2c_addr initState 0 = initState ∧ set_i2c_addr initState 128 = initState :=
  ⟨set_i2c_addr_out_of_range_noop initState 0 (Or.inl rfl),
   set_i2c_addr_out_of_range_noop initState 128 (Or.inr (by norm_num))⟩

/-- C4: `dc_motor_run` first saturates `speed` into [-255, 255]; if the
clamped speed is ≥ 0 it sends the 3-byte frame
`[0x02, chl, speed]`, otherwise `[0x03, chl, -speed]`.  Stated for every
channel value that fits in a byte; the witness instantiates the claim's
example `dc_motor_run ChannelB (-300)` = frame `[0x03, 1, 255]`. -/
theorem dc_motor_run_clamps_and_encodes (s : MotorDriverState) (chl speed : Int)
    (h0 : 0 ≤ chl) (h1 : chl ≤ 255) :
    (-255 ≤ clampSpeed speed ∧ clampSpeed speed ≤ 255) ∧
    dc_motor_run s chl speed =
      Except.ok (writeto s (if 0 ≤ clampSpeed speed
        then [GMD_CMD_CW, chl.toNat, (clampSpeed speed).toNat]
        else [GMD_CMD_CCW, chl.toNat, (-clampSpeed speed).toNat])) :=
  ⟨clampSpeed_bounds speed, dc_motor_run_eq s chl speed h0 h1⟩

/-- Witness for C4: the claim's example, `run_dc_motor(ChannelB, -300)`
sends exactly `[0x03, 1, 255]`. -/
theorem dc_motor_run_clamps_and_encodes_witness :
    dc_motor_run initState 1 (-300) =
      Except.ok (writeto initState [0x03, 1, 255]) := by
  have h := (dc_motor_run_clamps_and_encodes initState 1 (-300) (by norm_num) (by norm_num)).2
  simpa [clampSpeed, GMD_CMD_CCW] using h

/-- C5: in both `stepper_run` and `stepper_keep_run`, `rpm` is clamped
to [1, 300] and the inter-step period is `⌊3000 / clamped_rpm⌋`,
little-endian in the frame's two period bytes (positions 5/6 of the
StepperRun frame, 3/4 of the StepperKeepRun frame); every `rpm < 1`
yields period 3000 and every `rpm > 300` yields period 10; and
`stepper_run HALF_STEP 100 150` sends exactly
`[0x06, 2, 1, 100, 0, 20, 0]`. -/
theorem stepper_rpm_clamp_and_period (s : MotorDriverState)
    (mode steps rpm icw : Int) (hm0 : 0 ≤ mode) (hm1 : mode ≤ 255) :
    msPerStep rpm = 3000 / (clampRpm rpm).toNat ∧
    (1 ≤ clampRpm rpm ∧ clampRpm rpm ≤ 300) ∧
    (rpm < 1 → msPerStep rpm = 3000) ∧
    (300 < rpm → msPerStep rpm = 10) ∧
    (∃ f, stepper_run s mode steps rpm =
        Except.ok (writeto (stepsBranch s steps).2.2 f) ∧
      f.length = 7 ∧ f[5]? = some (msPerStep rpm % 256) ∧
      f[6]? = some (msPerStep rpm / 256)) ∧
    (∃ g, stepper_keep_run s mode rpm icw = Except.ok (writeto s g) ∧
      g.length = 5 ∧ g[3]? = some (msPerStep rpm % 256) ∧
      g[4]? = some (msPerStep rpm / 256)) ∧
    stepper_run initState HALF_STEP 100 150 =
      Except.ok (writeto initState [6, 2, 1, 100, 0, 20, 0]) := by
  refine ⟨rfl, clampRpm_bounds rpm, msPerStep_low_rpm rpm, msPerStep_high_rpm rpm,
    ⟨_, stepper_run_eq s mode steps rpm hm0 hm1, rfl, rfl, ?_⟩,
    ⟨_, stepper_keep_run_eq s mode rpm icw hm0 hm1, rfl, rfl, ?_⟩, ?_⟩
  · simp [msPerStep_hi]
  · simp [msPerStep_hi]
  · rfl

/-- Witness for C5 at `rpm = 301` and the claim's concrete example. -/
theorem stepper_rpm_clamp_and_period_witness :
    (300 < (301 : Int) → msPerStep 301 = 10) ∧
    stepper_run initState HALF_STEP 100 150 =
      Except.ok (writeto initState [6, 2, 1, 100, 0, 20, 0]) := by
  have h := stepper_rpm_clamp_and_period initState 3 (-5) 301 0
    (by norm_num) (by norm_num)
  exact ⟨h.2.2.2.1, h.2.2.2.2.2.2⟩

lemma stepsBranch_addr (s : MotorDriverState) (steps : Int) :
    (stepsBranch s steps).2.2.addr = s.addr := by
  unfold stepsBranch
  split_ifs <;> rfl

lemma toNat32767 : (32767 : Int).toNat = 32767 := rfl

lemma toNat0 : (0 : Int).toNat = 0 := rfl

lemma toNat1 : (1 : Int).toNat = 1 := rfl

/-- C6: in `stepper_run`, `steps = -32768` is encoded with magnitude
32767 (bytes 255, 127 low-first) and direction `cw = 0`; every other
`steps` in [-32767, -1] is encoded with magnitude `-steps` and `cw = 0`;
every `steps` in [1, 32767] with magnitude `steps` and `cw = 1`; the
16-bit magnitude is low byte first (frame positions 3 then 4). -/
theorem stepper_run_steps_encoding (s : MotorDriverState)
    (mode steps rpm : Int) (hm0 : 0 ≤ mode) (hm1 : mode ≤ 255) :
    (steps = -32768 →
      stepper_run s mode steps rpm =
        Except.ok (writeto s [GMD_CMD_STEPPER_RUN, mode.toNat, 0, 255, 127,
          msPerStep rpm % 256, msPerStep rpm / 256 % 256])) ∧
    (-32767 ≤ steps → steps ≤ -1 →
      stepper_run s mode steps rpm =
        Except.ok (writeto s [GMD_CMD_STEPPER_RUN, mode.toNat, 0,
          (-steps).toNat % 256, (-steps).toNat / 256,
          msPerStep rpm % 256, msPerStep rpm / 256 % 256])) ∧
    (1 ≤ steps → steps ≤ 32767 →
      stepper_run s mode steps rpm =
        Except.ok (writeto s [GMD_CMD_STEPPER_RUN, mode.toNat, 1,
          steps.toNat % 256, steps.toNat / 256,
          msPerStep rpm % 256, msPerStep rpm / 256 % 256])) := by
  refine ⟨?_, ?_, ?_⟩
  · intro h
    subst h
    have heq := stepper_run_eq s mode (-32768) rpm hm0 hm1
    rw [stepsBranch_min] at heq
    dsimp only at heq
    rw [toNat32767, toNat0] at heq
    rw [(rfl : (32767 : Nat) % 256 = 255),
      (rfl : (32767 : Nat) / 256 % 256 = 127)] at heq
    exact heq
  · intro hlo hhi
    have heq := stepper_run_eq s mode steps rpm hm0 hm1
    rw [stepsBranch_neg s steps (by omega) (by omega)] at heq
    dsimp only at heq
    rw [toNat0] at heq
    have hb : (-steps).toNat / 256 < 256 := by omega
    rw [Nat.mod_eq_of_lt hb] at heq
    exact heq
  · intro hlo hhi
    have heq := stepper_run_eq s mode steps rpm hm0 hm1
    rw [stepsBranch_pos s steps (by omega)] at heq
    dsimp only at heq
    rw [toNat1] at heq
    have hb : steps.toNat / 256 < 256 := by omega
    rw [Nat.mod_eq_of_lt hb] at heq
    exact heq

/-- Witness for C6 at `steps = -32768`: magnitude bytes 255, 127 encode
32767, not 0 and not a wrapped value. -/
theorem stepper_run_steps_encoding_witness :
    stepper_run initState 0 (-32768) 100 =
      Except.ok (writeto initState [6, 0, 0, 255, 127, 30, 0]) := by
  have h := (stepper_run_steps_encoding initState 0 (-32768) 100
    (by norm_num) (by norm_num)).1 rfl
  simpa [GMD_CMD_STEPPER_RUN, msPerStep, clampRpm] using h

/-- C7: `stepper_keep_run` encodes the direction byte as 5 when
`is_cw` is true (nonzero) and 4 when false, and sends exactly the 5-byte
frame `[0x08, mode, direction, period_low, period_high]`. -/
theorem stepper_keep_run_frame (s : MotorDriverState) (mode rpm is_cw : Int)
    (hm0 : 0 ≤ mode) (hm1 : mode ≤ 255) :
    stepper_keep_run s mode rpm is_cw =
      Except.ok (writeto s [GMD_CMD_STEPPER_KEEP_RUN, mode.toNat,
        if is_cw ≠ 0 then 5 else 4,
        msPerStep rpm % 256, msPerStep rpm / 256]) := by
  rw [stepper_keep_run_eq s mode rpm is_cw hm0 hm1, msPerStep_hi]

/-- Witness for C7 at `mode = 2`, `rpm = 150`, both directions. -/
theorem stepper_keep_run_frame_witness :
    stepper_keep_run initState 2 150 1 =
      Except.ok (writeto initState [8, 2, 5, 20, 0]) ∧
    stepper_keep_run initState 2 150 0 =
      Except.ok (writeto initState [8, 2, 4, 20, 0]) := by
  have h1 := stepper_keep_run_frame initState 2 150 1 (by norm_num) (by norm_num)
  have h0 := stepper_keep_run_frame initState 2 150 0 (by norm_num) (by norm_num)
  constructor
  · simpa [GMD_CMD_STEPPER_KEEP_RUN, msPerStep, clampRpm] using h1
  · simpa [GMD_CMD_STEPPER_KEEP_RUN, msPerStep, clampRpm] using h0

/-- Addr-preservation across an outcome: both a normal return and a
raised exception leave the stored address as it was. -/
def addrUnchanged (s : MotorDriverState) : PyM MotorDriverState → Prop
  | .ok t => t.addr = s.addr
  | .error (_, t) => t.addr = s.addr

/-- C9 counterexample: the claim's invariant says the stored address
lies in [1, 127] after any successful reassignment, but
`set_i2c_addr (-1)` is a successful reassignment (the guard only
rejects 0 and ≥ 128): it sends the SetAddress frame and stores `-1`,
which is outside [1, 127]. -/
theorem set_i2c_addr_negative_reassignment :
    (set_i2c_addr initState (-1)).addr = -1 ∧
    (set_i2c_addr initState (-1)).writes = [⟨0x14, List.replicate 17 0⟩] ∧
    ¬(1 ≤ (set_i2c_addr initState (-1)).addr ∧
      (set_i2c_addr initState (-1)).addr ≤ 127) := by
  refine ⟨rfl, rfl, ?_⟩
  intro h
  have h1 := h.1
  norm_num [set_i2c_addr, initState, writeto] at h1

/-- C9 amended: the stored address field is mutated only by
`set_i2c_addr`: every other operation leaves it unchanged whether it
returns normally or raises; and after a reassignment with a nonnegative
requested address, the stored address either is unchanged (the no-op
guard) or lies in [1, 127].  (The original claim, without the
nonnegativity qualification, fails at `set_i2c_addr (-1)`.) -/
theorem addr_mutated_only_by_set_i2c_addr (s : MotorDriverState)
    (chl speed mode steps rpm icw a : Int) (ha : 0 ≤ a) :
    (standby s).addr = s.addr ∧
    (not_standby s).addr = s.addr ∧
    (stepper_stop s).addr = s.addr ∧
    addrUnchanged s (dc_motor_run s chl speed) ∧
    addrUnchanged s (dc_motor_break s chl) ∧
    addrUnchanged s (dc_motor_stop s chl) ∧
    addrUnchanged s (stepper_run s mode steps rpm) ∧
    addrUnchanged s (stepper_keep_run s mode rpm icw) ∧
    ((set_i2c_addr s a).addr = s.addr ∨
      (1 ≤ (set_i2c_addr s a).addr ∧ (set_i2c_addr s a).addr ≤ 127)) := by
  refine ⟨rfl, rfl, rfl, ?_, ?_, ?_, ?_, ?_, ?_⟩
  · by_cases hc : 0 ≤ chl ∧ chl ≤ 255
    · rw [dc_motor_run_eq s chl speed hc.1 hc.2]
      exact rfl
    · rw [dc_motor_run_err s chl speed (by omega)]
      exact rfl
  · by_cases hc : 0 ≤ chl ∧ chl ≤ 255
    · rw [dc_motor_break_eq s chl hc.1 hc.2]
      exact rfl
    · rw [dc_motor_break_err s chl (by omega)]
      exact rfl
  · by_cases hc : 0 ≤ chl ∧ chl ≤ 255
    · rw [dc_motor_stop_eq s chl hc.1 hc.2]
      exact rfl
    · rw [dc_motor_stop_err s chl (by omega)]
      exact rfl
  · by_cases hc : 0 ≤ mode ∧ mode ≤ 255
    · rw [stepper_run_eq s mode steps rpm hc.1 hc.2]
      exact stepsBranch_addr s steps
    · rw [stepper_run_err s mode steps rpm (by omega)]
      exact stepsBranch_addr s steps
  · by_cases hc : 0 ≤ mode ∧ mode ≤ 255
    · rw [stepper_keep_run_eq s mode rpm icw hc.1 hc.2]
      exact rfl
    · rw [stepper_keep_run_err s mode rpm icw (by omega)]
      exact rfl
  · unfold set_i2c_addr
    split_ifs with h1 h2
    · left
      rfl
    · left
      rfl
    · right
      refine ⟨?_, ?_⟩
      · show 1 ≤ a
        omega
      · show a ≤ 127
        omega

/-- Witness for C9 (amended) at concrete arguments. -/
theorem addr_mutated_only_by_set_i2c_addr_witness :
    (standby initState).addr = initState.addr ∧
    ((set_i2c_addr initState 50).addr = initState.addr ∨
      (1 ≤ (set_i2c_addr initState 50).addr ∧
       (set_i2c_addr initState 50).addr ≤ 127)) := by
  have h := addr_mutated_only_by_set_i2c_addr initState 1 100 2 5 150 1 50
    (by norm_num)
  exact ⟨h.1, h.2.2.2.2.2.2.2.2⟩

/-- C10: the channel byte of the DC-motor commands and the mode byte of
the stepper commands are embedded verbatim in the frame with no
validation or clamping for every value in [0, 255]; for every value
outside [0, 255] the call raises the frame-construction `ValueError`
(not a transport error) before the frame write, so no run frame is sent
(in `stepper_run`, the stop frame from a zero `steps` may already have
been sent, but never the run frame). -/
theorem mode_channel_passthrough (s : MotorDriverState)
    (c m speed steps rpm icw : Int)
    (hc0 : 0 ≤ c) (hc1 : c ≤ 255) (hm : m < 0 ∨ 255 < m) :
    (∃ f, dc_motor_run s c speed = Except.ok (writeto s f) ∧
      f[1]? = some c.toNat) ∧
    dc_motor_break s c = Except.ok (writeto s [GMD_CMD_BRAKE, c.toNat]) ∧
    dc_motor_stop s c = Except.ok (writeto s [GMD_CMD_STOP, c.toNat]) ∧
    (∃ f, stepper_run s c steps rpm =
      Except.ok (writeto (stepsBranch s steps).2.2 f) ∧ f[1]? = some c.toNat) ∧
    (∃ g, stepper_keep_run s c rpm icw = Except.ok (writeto s g) ∧
      g[1]? = some c.toNat) ∧
    dc_motor_run s m speed = Except.error ("ValueError", s) ∧
    dc_motor_break s m = Except.error ("ValueError", s) ∧
    dc_motor_stop s m = Except.error ("ValueError", s) ∧
    stepper_run s m steps rpm =
      Except.error ("ValueError", (stepsBranch s steps).2.2) ∧
    ((stepsBranch s steps).2.2.writes = s.writes ∨
      (stepsBranch s steps).2.2.writes =
        s.writes ++ [⟨s.addr, pyBytesOfNat GMD_CMD_STEPPER_STOP⟩]) ∧
    stepper_keep_run s m rpm icw = Except.error ("ValueError", s) := by
  refine ⟨⟨_, dc_motor_run_eq s c speed hc0 hc1, ?_⟩,
    dc_motor_break_eq s c hc0 hc1,
    dc_motor_stop_eq s c hc0 hc1,
    ⟨_, stepper_run_eq s c steps rpm hc0 hc1, rfl⟩,
    ⟨_, stepper_keep_run_eq s c rpm icw hc0 hc1, rfl⟩,
    dc_motor_run_err s m speed hm,
    dc_motor_break_err s m hm,
    dc_motor_stop_err s m hm,
    stepper_run_err s m steps rpm hm,
    ?_,
    stepper_keep_run_err s m rpm icw hm⟩
  · split_ifs <;> rfl
  · unfold stepsBranch
    split_ifs
    · left
      rfl
    · right
      rfl
    · left
      rfl
    · left
      rfl

/-- Witness for C10: channel 1 passes through verbatim, channel/mode
300 raises the frame-construction error with no write. -/
theorem mode_channel_passthrough_witness :
    dc_motor_break initState 1 =
      Except.ok (writeto initState [GMD_CMD_BRAKE, 1]) ∧
    dc_motor_break initState 300 = Except.error ("ValueError", initState) ∧
    stepper_keep_run initState 300 150 1 =
      Except.error ("ValueError", initState) := by
  have h := mode_channel_passthrough initState 1 300 100 5 150 1
    (by norm_num) (by norm_num) (Or.inr (by norm_num))
  refine ⟨?_, h.2.2.2.2.2.2.2.1, h.2.2.2.2.2.2.2.2.2.2⟩
  have hb := h.2.1
  simpa using hb
